import Mathlib

/-!
Shallow embedding of the SPARC instruction-selection pass of libfirm
(`src/ir/be/sparc/sparc_transform.c`).

Each per-opcode handler of the C file is embedded as a Lean function.
Calls to the external transformation framework (`be_transform_node`,
`be_duplicate_node`) are modelled by an explicit transformation oracle
parameter `t : SrcNode → TgtNode`, respectively by the `TgtNode.Duplicate`
constructor; the handlers themselves are translated statement by statement
from the C source.  Machine integers (C `int` / `long`) are modelled as
`Int`; the source only compares and subtracts them, so no overflow wrapping
arises inside the embedded fragments (comparisons against `INT_MAX` /
`INT_MIN` in `gen_SwitchJmp` keep their literal values 2147483647 and
-2147483648).
-/

namespace SparcTransform

/-- Value modes of IR nodes: integer (signedness, bit width), reference
(pointer), floating point, memory token, and the boolean flag mode
`mode_b` used by two-way Cond selectors. -/
inductive IrMode where
  | intM (signed : Bool) (bits : Nat)
  | refM (bits : Nat)
  | floatM (bits : Nat)
  | memM
  | boolM
deriving DecidableEq, Repr

/-- The canonical 32-bit unsigned integer mode `mode_Iu`. -/
def mode_Iu : IrMode := .intM false 32

/-- The memory mode `mode_M`. -/
def mode_M : IrMode := .memM

def mode_is_int : IrMode → Bool
  | .intM _ _ => true
  | _ => false

def mode_is_reference : IrMode → Bool
  | .refM _ => true
  | _ => false

def mode_is_float : IrMode → Bool
  | .floatM _ => true
  | _ => false

/-- Reference modes are unsigned in libfirm, so only integer modes can be
signed. -/
def mode_is_signed : IrMode → Bool
  | .intM s _ => s
  | _ => false

def get_mode_size_bits : IrMode → Int
  | .intM _ b => (b : Int)
  | .refM b => (b : Int)
  | .floatM b => (b : Int)
  | .memM => 0
  | .boolM => 1

/-- `mode_needs_gp_reg` from sparc_transform.c: integer or reference mode. -/
def mode_needs_gp_reg (mode : IrMode) : Bool :=
  mode_is_int mode || mode_is_reference mode

/-- A tarval: a constant value paired with its mode.  The stored `value` is
the raw value that `get_tarval_long` extracts. -/
structure Tarval where
  value : Int
  mode : IrMode
deriving DecidableEq, Repr

def get_tarval_long (tv : Tarval) : Int := tv.value

def get_tarval_mode (tv : Tarval) : IrMode := tv.mode

/-- `tarval_convert_to`.  The pass only converts reference tarvals to
`mode_Iu` (create_const_graph); conversion to the 32-bit unsigned mode
reinterprets the value modulo 2^32. -/
def tarval_convert_to (tv : Tarval) (m : IrMode) : Tarval :=
  match m with
  | .intM false 32 => ⟨Int.emod tv.value 4294967296, m⟩
  | _ => ⟨tv.value, m⟩

/-- Source IR nodes, restricted to the shape the embedded handlers consult:
a Const carries its tarval; for Proj dispatching only the predecessor's
opcode class matters; every other operand is `Other` with its mode. -/
inductive SrcNode where
  | Const (tv : Tarval)
  | Store
  | Load
  | beSubSP
  | beAddSP
  | Cmp
  | Div
  | Start
  | Other (mode : IrMode)
deriving DecidableEq, Repr

def is_Const : SrcNode → Bool
  | .Const _ => true
  | _ => false

/-- `get_Const_tarval`; in the C source this accessor is only invoked on
nodes already known to be Const, so the non-Const result is irrelevant
junk (every use below is guarded by `is_Const`). -/
def get_Const_tarval : SrcNode → Tarval
  | .Const tv => tv
  | _ => ⟨0, mode_Iu⟩

/-- Projection selectors of SPARC target nodes.  The named selectors come
from the generated `gen_sparc_new_nodes.h` enums used by the C file
(`pn_sparc_Mul_low`, `pn_sparc_Mulh_low`, `pn_sparc_Ld_res`, ...); `num`
covers the generic numbered Proj created in `gen_Proj`'s default branch. -/
inductive TgtPn where
  | Mul_low
  | Mulh_low
  | Ld_res
  | Ld_M
  | SubSP_stack
  | SubSP_M
  | AddSP_stack
  | AddSP_M
  | Div_res
  | num (n : Int)
deriving DecidableEq, Repr

/-- SPARC target nodes, one constructor per builder (`new_bd_sparc_*`)
invoked by the embedded handlers, plus `Proj`, the `NoMem` singleton and
`Duplicate m` standing for the node `be_duplicate_node` produces from a
source node of mode `m`. -/
inductive TgtNode where
  | Add_reg (a b : TgtNode)
  | Add_imm (a : TgtNode) (simm13 : Int)
  | Sub_reg (a b : TgtNode)
  | Sub_imm (a : TgtNode) (simm13 : Int)
  | Mul_reg (a b : TgtNode)
  | Mul_imm (a : TgtNode) (simm13 : Int)
  | Mulh_reg (a b : TgtNode)
  | Mulh_imm (a : TgtNode) (simm13 : Int)
  | Div_reg (a b : TgtNode)
  | Div_imm (a : TgtNode) (simm13 : Int)
  | And_reg (a b : TgtNode)
  | And_imm (a : TgtNode) (simm13 : Int)
  | Or_reg (a b : TgtNode)
  | Or_imm (a : TgtNode) (simm13 : Int)
  | Xor_reg (a b : TgtNode)
  | Xor_imm (a : TgtNode) (simm13 : Int)
  | Sll_reg (a b : TgtNode)
  | Sll_imm (a : TgtNode) (simm13 : Int)
  | Slr_reg (a b : TgtNode)
  | Slr_imm (a : TgtNode) (simm13 : Int)
  | Sra_reg (a b : TgtNode)
  | Sra_imm (a : TgtNode) (simm13 : Int)
  | Mov_imm (v : Int)
  | Mov_reg (op : TgtNode)
  | HiImm (v : Int)
  | LoImm (hi : TgtNode) (v : Int)
  | NotN (op : TgtNode)
  | MinusN (op : TgtNode)
  | fMul (a b : TgtNode) (mode : IrMode)
  | Ld (ptr mem : TgtNode) (mode : IrMode)
  | St (ptr val mem : TgtNode) (mode : IrMode)
  | SubSP (sp sz mem : TgtNode)
  | AddSP (sp sz mem : TgtNode)
  | NoMem
  | Cmp_reg (a b : TgtNode) (carry is_unsigned : Bool)
  | SwitchJmp (sel : TgtNode) (n_projs : Int) (default_pn : Int)
  | Proj (pred : TgtNode) (mode : IrMode) (pn : TgtPn)
  | Duplicate (mode : IrMode)
deriving DecidableEq, Repr

/-- `get_sparc_irn_opcode(n) == iro_sparc_Ld` test used by gen_Proj_Load. -/
def is_sparc_Ld : TgtNode → Bool
  | .Ld _ _ _ => true
  | _ => false

/-- `is_sparc_Div` test used by gen_Proj_Div. -/
def is_sparc_Div : TgtNode → Bool
  | .Div_reg _ _ => true
  | .Div_imm _ _ => true
  | _ => false

def is_proj_node : TgtNode → Bool
  | .Proj _ _ _ => true
  | _ => false

/-- Fatal failures (`panic(...)` in the C source). -/
inductive SparcError where
  | fatal (msg : String)
deriving DecidableEq, Repr

/-! ## Constant materialisation -/

/-- `create_const_graph_value`: a value in the simm13 range [-4096, 4095]
becomes a single Mov_imm; anything else is loaded through HiImm/LoImm. -/
def create_const_graph_value (value : Int) : TgtNode :=
  if value < -4096 || value > 4095 then
    let hi := TgtNode.HiImm value
    TgtNode.LoImm hi value
  else
    TgtNode.Mov_imm value

/-- `create_const_graph`: a reference tarval is first converted to
`mode_Iu` (SPARC V8 is 32 bit), then the long value is materialised.
Takes the Const node's tarval (`get_Const_tarval(irn)`). -/
def create_const_graph (tv : Tarval) : TgtNode :=
  let tv' := if mode_is_reference (get_tarval_mode tv) then
               tarval_convert_to tv mode_Iu
             else tv
  create_const_graph_value (get_tarval_long tv')

/-! ## The binop helper family -/

/-- `match_flags_t` of the C source (bit flags MATCH_COMMUTATIVE and
MATCH_SIZE_NEUTRAL). -/
structure match_flags_t where
  commutative : Bool
  size_neutral : Bool
deriving DecidableEq, Repr

def MATCH_NONE : match_flags_t := ⟨false, false⟩
def MATCH_COMMUTATIVE : match_flags_t := ⟨true, false⟩
def MATCH_SIZE_NEUTRAL : match_flags_t := ⟨false, true⟩
def MATCH_COMMUTATIVE_SIZE_NEUTRAL : match_flags_t := ⟨true, true⟩

/-- `is_imm_encodeable`: a Const whose raw long value fits the signed
13-bit immediate range.  The tarval's mode is never consulted. -/
def is_imm_encodeable (node : SrcNode) : Bool :=
  if is_Const node = false then
    false
  else
    let val := get_tarval_long (get_Const_tarval node)
    !(val < -4096 || val > 4095)

/-- `gen_helper_binop`: shared lowering for binary reg/imm operators.
`t` is the transformation oracle (`be_transform_node`), `new_reg` and
`new_imm` the two builder callbacks. -/
def gen_helper_binop (flags : match_flags_t) (op1 op2 : SrcNode)
    (t : SrcNode → TgtNode)
    (new_reg : TgtNode → TgtNode → TgtNode)
    (new_imm : TgtNode → Int → TgtNode) : TgtNode :=
  if is_imm_encodeable op2 then
    new_imm (t op1) (get_tarval_long (get_Const_tarval op2))
  else
    let new_op2 := t op2
    if flags.commutative && is_imm_encodeable op1 then
      new_imm new_op2 (get_tarval_long (get_Const_tarval op1))
    else
      new_reg (t op1) new_op2

/-- `gen_helper_binfpop`: FP binop helper; the builder also receives the
node's mode. -/
def gen_helper_binfpop (op1 op2 : SrcNode) (t : SrcNode → TgtNode)
    (new_reg : TgtNode → TgtNode → IrMode → TgtNode) (mode : IrMode) :
    TgtNode :=
  new_reg (t op1) (t op2) mode

/-! ## Extension helpers -/

/-- `gen_zero_extension`: AND with 0xFF for 8 bits, shift-left-16 then
logical-shift-right-16 for 16 bits, fatal for any other width. -/
def gen_zero_extension (op : TgtNode) (src_bits : Int) :
    Except SparcError TgtNode :=
  if src_bits = 8 then
    .ok (TgtNode.And_imm op 255)
  else if src_bits = 16 then
    let lshift := TgtNode.Sll_imm op 16
    let rshift := TgtNode.Slr_imm lshift 16
    .ok rshift
  else
    .error (.fatal "zero extension only supported for 8 and 16 bits")

/-- `gen_sign_extension`: shift left then arithmetic shift right by
`32 - src_bits`. -/
def gen_sign_extension (op : TgtNode) (src_bits : Int) : TgtNode :=
  let shift_width := 32 - src_bits
  let lshift_node := TgtNode.Sll_imm op shift_width
  let rshift_node := TgtNode.Sra_imm lshift_node shift_width
  rshift_node

/-- `gen_extension`: identity at 32 bits, sign extension for signed modes,
zero extension otherwise. -/
def gen_extension (op : TgtNode) (orig_mode : IrMode) :
    Except SparcError TgtNode :=
  let bits := get_mode_size_bits orig_mode
  if bits = 32 then
    .ok op
  else if mode_is_signed orig_mode then
    .ok (gen_sign_extension op bits)
  else
    gen_zero_extension op bits

/-! ## Arithmetic handlers -/

/-- `gen_Add`: fatal for FP, otherwise the commutative size-neutral binop
with the Add builders.  `mode` is the node's mode, `op1`/`op2` its binop
operands. -/
def gen_Add (mode : IrMode) (op1 op2 : SrcNode) (t : SrcNode → TgtNode) :
    Except SparcError TgtNode :=
  if mode_is_float mode then
    .error (.fatal "FP not implemented yet")
  else
    .ok (gen_helper_binop MATCH_COMMUTATIVE_SIZE_NEUTRAL op1 op2 t
          TgtNode.Add_reg TgtNode.Add_imm)

/-- `gen_Sub`. -/
def gen_Sub (mode : IrMode) (op1 op2 : SrcNode) (t : SrcNode → TgtNode) :
    Except SparcError TgtNode :=
  if mode_is_float mode then
    .error (.fatal "FP not implemented yet")
  else
    .ok (gen_helper_binop MATCH_SIZE_NEUTRAL op1 op2 t
          TgtNode.Sub_reg TgtNode.Sub_imm)

/-- Result of the Mul/Mulh/Div handlers: the multiply/divide node built
through the binop helper, whether `arch_irn_add_flags(_,
arch_irn_flags_modify_flags)` was applied to it, and the node the handler
returns. -/
structure HandlerOut where
  emitted : TgtNode
  modify_flags : Bool
  result : TgtNode
deriving DecidableEq, Repr

/-- `gen_Mul`: FP goes through the FP helper; integer Mul is built with
the Mul builders, gets the modify-flags attribute, and the handler returns
a Proj extracting the low 32 bits (`pn_sparc_Mul_low`). -/
def gen_Mul (mode : IrMode) (op1 op2 : SrcNode) (t : SrcNode → TgtNode) :
    Except SparcError HandlerOut :=
  if mode_is_float mode then
    let mul := gen_helper_binfpop op1 op2 t TgtNode.fMul mode
    .ok ⟨mul, false, mul⟩
  else
    let mul := gen_helper_binop MATCH_COMMUTATIVE_SIZE_NEUTRAL op1 op2 t
                 TgtNode.Mul_reg TgtNode.Mul_imm
    let proj_res_low := TgtNode.Proj mul mode_Iu TgtPn.Mul_low
    .ok ⟨mul, true, proj_res_low⟩

/-- `gen_Mulh`: fatal for FP; the integer Mulh is built with the Mulh
builders (the modify-flags call is commented out in the source) and the
handler returns a Proj with selector `pn_sparc_Mulh_low`, which per the
node's documentation carries the upper 32 bits of the multiplication. -/
def gen_Mulh (mode : IrMode) (op1 op2 : SrcNode) (t : SrcNode → TgtNode) :
    Except SparcError HandlerOut :=
  if mode_is_float mode then
    .error (.fatal "FP not supported yet")
  else
    let mul := gen_helper_binop MATCH_COMMUTATIVE_SIZE_NEUTRAL op1 op2 t
                 TgtNode.Mulh_reg TgtNode.Mulh_imm
    let proj_res_hi := TgtNode.Proj mul mode_Iu TgtPn.Mulh_low
    .ok ⟨mul, false, proj_res_hi⟩

/-- `gen_Div`: fatal for FP; the integer Div is built with the Div
builders and returned directly — no Proj is injected and no flags are
set. -/
def gen_Div (mode : IrMode) (op1 op2 : SrcNode) (t : SrcNode → TgtNode) :
    Except SparcError HandlerOut :=
  if mode_is_float mode then
    .error (.fatal "FP not supported yet")
  else
    let div := gen_helper_binop MATCH_SIZE_NEUTRAL op1 op2 t
                 TgtNode.Div_reg TgtNode.Div_imm
    .ok ⟨div, false, div⟩

/-- `gen_Abs`: mov, arithmetic-shift-right by 31, xor, sub.  `new_op` is
the transformed operand `be_transform_node(get_Abs_op(node))`. -/
def gen_Abs (mode : IrMode) (new_op : TgtNode) :
    Except SparcError TgtNode :=
  if mode_is_float mode then
    .error (.fatal "FP not supported yet")
  else
    let mov := TgtNode.Mov_reg new_op
    let sra := TgtNode.Sra_imm mov 31
    let xorN := TgtNode.Xor_reg new_op sra
    let sub := TgtNode.Sub_reg sra xorN
    .ok sub

/-! ## Compare -/

/-- `gen_Cmp`: fatal for FP compare; otherwise both transformed operands
(`new_op1`, `new_op2`) are passed through `gen_extension` for the compare
mode before building `Cmp_reg` with carry `false` and
`is_unsigned = not (mode_is_signed cmp_mode)`.  (The C assert that both
operands share `cmp_mode` compiles away and is not modelled.) -/
def gen_Cmp (cmp_mode : IrMode) (new_op1 new_op2 : TgtNode) :
    Except SparcError TgtNode :=
  if mode_is_float cmp_mode then
    .error (.fatal "FloatCmp not implemented")
  else
    let is_unsigned := !(mode_is_signed cmp_mode)
    match gen_extension new_op1 cmp_mode with
    | .error e => .error e
    | .ok e1 =>
      match gen_extension new_op2 cmp_mode with
      | .error e => .error e
      | .ok e2 => .ok (TgtNode.Cmp_reg e1 e2 false is_unsigned)

/-! ## Stack pointer manipulation and Copy -/

/-- `gen_be_AddSP`: the stack grows downward on SPARC, so a source AddSP
becomes a target SubSP over (transformed old sp, transformed size,
NoMem). -/
def gen_be_AddSP (new_sp new_sz : TgtNode) : TgtNode :=
  TgtNode.SubSP new_sp new_sz TgtNode.NoMem

/-- `gen_be_SubSP`: symmetrically, a source SubSP becomes a target
AddSP. -/
def gen_be_SubSP (new_sp new_sz : TgtNode) : TgtNode :=
  TgtNode.AddSP new_sp new_sz TgtNode.NoMem

/-- Result of `gen_be_Copy`, which both returns a node and (through
`set_irn_mode`) can mutate a node's mode: the mode of the returned
duplicate and the mode of the *source* node after the handler ran. -/
structure CopyOut where
  result_mode : IrMode
  source_mode_after : IrMode
deriving DecidableEq, Repr

/-- `gen_be_Copy`: `result = be_duplicate_node(node)` (the duplicate keeps
the source's mode); then the mode of `result` is read and, if it needs a
GP register, `set_irn_mode(node, mode_Iu)` is executed — on the source
node `node`, not on `result`. -/
def gen_be_Copy (source_mode : IrMode) : CopyOut :=
  let result_mode := source_mode
  if mode_needs_gp_reg result_mode then
    { result_mode := result_mode, source_mode_after := mode_Iu }
  else
    { result_mode := result_mode, source_mode_after := source_mode }

/-! ## Switch lowering -/

/-- The single loop of `gen_SwitchJmp` computing min and max of the Proj
selectors, folded over the Cond's out edges (`min = pn<min ? pn : min`,
`max = pn>max ? pn : max`), started at `INT_MAX` / `INT_MIN`. -/
def switch_min_max (projs : List Int) : Int × Int :=
  projs.foldl
    (fun acc pn =>
      (if pn < acc.1 then pn else acc.1, if pn > acc.2 then pn else acc.2))
    (2147483647, -2147483648)

/-- Observable outcome of `gen_SwitchJmp`: the computed translation and
`n_projs`, the rewritten Proj selectors (in edge order; the loop executes
`set_Proj_proj(proj, pn - translation)` on each), and the returned
SwitchJmp node. -/
structure SwitchJmpOut where
  translation : Int
  n_projs : Int
  new_projs : List Int
  result : TgtNode
deriving DecidableEq, Repr

/-- `gen_SwitchJmp`: `new_op` is the transformed selector
(`be_transform_node(get_Cond_selector(node))`), `projs` the selectors of
the Cond's outgoing Projs, `default_pn` the Cond's default Proj number. -/
def gen_SwitchJmp (new_op : TgtNode) (projs : List Int)
    (default_pn : Int) : SwitchJmpOut :=
  let mm := switch_min_max projs
  let translation := mm.1
  let n_projs := mm.2 - translation + 1
  let new_projs := projs.map (fun pn => pn - translation)
  let const_graph := create_const_graph_value translation
  let sub := TgtNode.Sub_reg new_op const_graph
  { translation := translation
    n_projs := n_projs
    new_projs := new_projs
    result := TgtNode.SwitchJmp sub n_projs (default_pn - translation) }

/-! ## Projection dispatch

The numeric selector values below come from the external libfirm headers
(`irnode.h` Proj numbering, `benode.h` backend Proj numbering), which are
not part of the sampled sources; the handlers only compare against them,
so only their (distinct) identities matter. -/

def pn_Store_M : Int := 0
def pn_Load_M : Int := 0
def pn_Load_res : Int := 3
def pn_Div_res : Int := 3
def pn_be_AddSP_sp : Int := 0
def pn_be_AddSP_res : Int := 1
def pn_be_AddSP_M : Int := 2
def pn_be_SubSP_sp : Int := 0
def pn_be_SubSP_M : Int := 1

/-- `gen_Proj_Load`: `new_load` is the transformed Load.  If it is a SPARC
Ld, selector `pn_Load_res` becomes a Proj in `mode_Iu` on
`pn_sparc_Ld_res` and `pn_Load_M` a memory Proj on `pn_sparc_Ld_M`; any
other selector falls out of the switch to `be_duplicate_node`.  A
transformed load that is not a SPARC Ld is fatal.  `src_mode` is the mode
of the source Proj node (kept by the duplicate). -/
def gen_Proj_Load (new_load : TgtNode) (proj : Int) (src_mode : IrMode) :
    Except SparcError TgtNode :=
  if is_sparc_Ld new_load then
    if proj = pn_Load_res then
      .ok (TgtNode.Proj new_load mode_Iu TgtPn.Ld_res)
    else if proj = pn_Load_M then
      .ok (TgtNode.Proj new_load mode_M TgtPn.Ld_M)
    else
      .ok (TgtNode.Duplicate src_mode)
  else
    .error (.fatal "Unsupported Proj from Load")

/-- Result of the AddSP/SubSP Proj handlers: the produced Proj plus
whether `arch_set_irn_register(res, sparc_gp_regs[REG_SP])` was applied
to it. -/
structure ProjOut where
  node : TgtNode
  sp_register_set : Bool
deriving DecidableEq, Repr

/-- `gen_Proj_be_AddSP`: `sp` maps to the target SubSP's stack selector
with the SP register assigned, `res` to the same stack selector, `M` to
the memory selector; anything else is fatal.  `new_pred` is the
transformed be_AddSP (a SPARC SubSP). -/
def gen_Proj_be_AddSP (new_pred : TgtNode) (proj : Int) :
    Except SparcError ProjOut :=
  if proj = pn_be_AddSP_sp then
    .ok ⟨TgtNode.Proj new_pred mode_Iu TgtPn.SubSP_stack, true⟩
  else if proj = pn_be_AddSP_res then
    .ok ⟨TgtNode.Proj new_pred mode_Iu TgtPn.SubSP_stack, false⟩
  else if proj = pn_be_AddSP_M then
    .ok ⟨TgtNode.Proj new_pred mode_M TgtPn.SubSP_M, false⟩
  else
    .error (.fatal "Unsupported Proj from AddSP")

/-- `gen_Proj_be_SubSP`: `sp` maps to the target AddSP's stack selector
with the SP register assigned, `M` to the memory selector (a be_SubSP has
no `res` output); anything else is fatal. -/
def gen_Proj_be_SubSP (new_pred : TgtNode) (proj : Int) :
    Except SparcError ProjOut :=
  if proj = pn_be_SubSP_sp then
    .ok ⟨TgtNode.Proj new_pred mode_Iu TgtPn.AddSP_stack, true⟩
  else if proj = pn_be_SubSP_M then
    .ok ⟨TgtNode.Proj new_pred mode_M TgtPn.AddSP_M, false⟩
  else
    .error (.fatal "Unsupported Proj from SubSP")

/-- `gen_Proj_Div`: only selector `pn_Div_res` on a transformed SPARC Div
is defined, yielding a Proj in the source Proj's mode on
`pn_sparc_Div_res`; everything else is fatal. -/
def gen_Proj_Div (new_pred : TgtNode) (proj : Int) (mode : IrMode) :
    Except SparcError TgtNode :=
  if proj = pn_Div_res then
    if is_sparc_Div new_pred then
      .ok (TgtNode.Proj new_pred mode TgtPn.Div_res)
    else
      .error (.fatal "Unsupported Proj from Div")
  else
    .error (.fatal "Unsupported Proj from Div")

/-- `gen_Proj`: dispatch on the predecessor's opcode class.  Store keeps
only the memory Proj (short-circuiting to the transformed Store);
Load/SubSP/AddSP/Cmp/Div delegate to their handlers; the Start branch is
entirely commented out in the source and falls through to
`be_duplicate_node`; every other predecessor is transformed and, for a
GP mode, projected generically in `mode_Iu` under the source's numeric
selector, otherwise duplicated.  `new_pred` is the transformed
predecessor, `proj` the selector, `mode` the Proj node's mode. -/
def gen_Proj (pred : SrcNode) (new_pred : TgtNode) (proj : Int)
    (mode : IrMode) : Except SparcError TgtNode :=
  match pred with
  | .Store =>
    if proj = pn_Store_M then
      .ok new_pred
    else
      .error (.fatal "Unsupported Proj from Store")
  | .Load => gen_Proj_Load new_pred proj mode
  | .beSubSP => (gen_Proj_be_SubSP new_pred proj).map ProjOut.node
  | .beAddSP => (gen_Proj_be_AddSP new_pred proj).map ProjOut.node
  | .Cmp => .error (.fatal "not implemented")
  | .Div => gen_Proj_Div new_pred proj mode
  | .Start => .ok (TgtNode.Duplicate mode)
  | _ =>
    if mode_needs_gp_reg mode then
      .ok (TgtNode.Proj new_pred mode_Iu (TgtPn.num proj))
    else
      .ok (TgtNode.Duplicate mode)

/-! ## Lemmas about the min/max fold of gen_SwitchJmp -/

theorem foldl_pair_split (projs : List Int) (a b : Int) :
    projs.foldl
      (fun acc pn =>
        (if pn < acc.1 then pn else acc.1, if pn > acc.2 then pn else acc.2))
      (a, b) =
    (projs.foldl (fun m pn => if pn < m then pn else m) a,
     projs.foldl (fun m pn => if pn > m then pn else m) b) := by
  induction projs generalizing a b with
  | nil => rfl
  | cons p l ih => simp only [List.foldl_cons]; exact ih _ _

theorem switch_min_max_fst (projs : List Int) :
    (switch_min_max projs).1 =
      projs.foldl (fun m pn => if pn < m then pn else m) 2147483647 := by
  unfold switch_min_max
  rw [foldl_pair_split]

theorem switch_min_max_snd (projs : List Int) :
    (switch_min_max projs).2 =
      projs.foldl (fun m pn => if pn > m then pn else m) (-2147483648) := by
  unfold switch_min_max
  rw [foldl_pair_split]

theorem fold_min_le_init (l : List Int) (a : Int) :
    l.foldl (fun m pn => if pn < m then pn else m) a ≤ a := by
  induction l generalizing a with
  | nil => simp
  | cons p t ih =>
    simp only [List.foldl_cons]
    by_cases hpa : p < a
    · have h := ih p
      simp only [if_pos hpa]
      omega
    · have h := ih a
      simp only [if_neg hpa]
      omega

theorem fold_min_le_mem (l : List Int) (a pn : Int) (h : pn ∈ l) :
    l.foldl (fun m pn => if pn < m then pn else m) a ≤ pn := by
  induction l generalizing a with
  | nil => cases h
  | cons p t ih =>
    simp only [List.foldl_cons]
    rcases List.mem_cons.mp h with rfl | hm
    · by_cases hpa : pn < a
      · have h2 := fold_min_le_init t pn
        simp only [if_pos hpa]
        omega
      · have h2 := fold_min_le_init t a
        simp only [if_neg hpa]
        omega
    · exact ih _ hm

theorem fold_min_mem_or_init (l : List Int) (a : Int) :
    l.foldl (fun m pn => if pn < m then pn else m) a = a ∨
      l.foldl (fun m pn => if pn < m then pn else m) a ∈ l := by
  induction l generalizing a with
  | nil => exact Or.inl rfl
  | cons p t ih =>
    simp only [List.foldl_cons]
    rcases ih (if p < a then p else a) with h | h
    · rw [h]
      split
      · exact Or.inr (List.mem_cons_self _ _)
      · exact Or.inl rfl
    · exact Or.inr (List.mem_cons_of_mem _ h)

theorem fold_max_ge_init (l : List Int) (a : Int) :
    a ≤ l.foldl (fun m pn => if pn > m then pn else m) a := by
  induction l generalizing a with
  | nil => simp
  | cons p t ih =>
    simp only [List.foldl_cons]
    by_cases hpa : p > a
    · have h := ih p
      simp only [if_pos hpa]
      omega
    · have h := ih a
      simp only [if_neg hpa]
      omega

theorem fold_max_ge_mem (l : List Int) (a pn : Int) (h : pn ∈ l) :
    pn ≤ l.foldl (fun m pn => if pn > m then pn else m) a := by
  induction l generalizing a with
  | nil => cases h
  | cons p t ih =>
    simp only [List.foldl_cons]
    rcases List.mem_cons.mp h with rfl | hm
    · by_cases hpa : pn > a
      · have h2 := fold_max_ge_init t pn
        simp only [if_pos hpa]
        omega
      · have h2 := fold_max_ge_init t a
        simp only [if_neg hpa]
        omega
    · exact ih _ hm

theorem fold_max_mem_or_init (l : List Int) (a : Int) :
    l.foldl (fun m pn => if pn > m then pn else m) a = a ∨
      l.foldl (fun m pn => if pn > m then pn else m) a ∈ l := by
  induction l generalizing a with
  | nil => exact Or.inl rfl
  | cons p t ih =>
    simp only [List.foldl_cons]
    rcases ih (if p > a then p else a) with h | h
    · rw [h]
      split
      · exact Or.inr (List.mem_cons_self _ _)
      · exact Or.inl rfl
    · exact Or.inr (List.mem_cons_of_mem _ h)

/-- The computed minimum is a member of a nonempty selector list whose
entries fit in a C `int`, and bounds every entry. -/
theorem switch_min_spec (projs : List Int) (hne : projs ≠ [])
    (hbound : ∀ pn ∈ projs, pn ≤ 2147483647) :
    (switch_min_max projs).1 ∈ projs ∧
      ∀ pn ∈ projs, (switch_min_max projs).1 ≤ pn := by
  rw [switch_min_max_fst]
  refine ⟨?_, fun pn h => fold_min_le_mem projs _ pn h⟩
  rcases fold_min_mem_or_init projs 2147483647 with h | h
  · obtain ⟨p0, hp0⟩ := List.exists_mem_of_ne_nil projs hne
    have h1 := fold_min_le_mem projs 2147483647 p0 hp0
    have h2 := hbound p0 hp0
    have : p0 = projs.foldl (fun m pn => if pn < m then pn else m) 2147483647 := by
      omega
    rw [← this]
    exact hp0
  · exact h

/-- The computed maximum is a member of a nonempty selector list whose
entries fit in a C `int`, and is an upper bound for every entry. -/
theorem switch_max_spec (projs : List Int) (hne : projs ≠ [])
    (hbound : ∀ pn ∈ projs, -2147483648 ≤ pn) :
    (switch_min_max projs).2 ∈ projs ∧
      ∀ pn ∈ projs, pn ≤ (switch_min_max projs).2 := by
  rw [switch_min_max_snd]
  refine ⟨?_, fun pn h => fold_max_ge_mem projs _ pn h⟩
  rcases fold_max_mem_or_init projs (-2147483648) with h | h
  · obtain ⟨p0, hp0⟩ := List.exists_mem_of_ne_nil projs hne
    have h1 := fold_max_ge_mem projs (-2147483648) p0 hp0
    have h2 := hbound p0 hp0
    have : p0 = projs.foldl (fun m pn => if pn > m then pn else m) (-2147483648) := by
      omega
    rw [← this]
    exact hp0
  · exact h

/-! ## Claim C1 -/

/-- Claim C1 (counterexample): for the switch Cond with Proj selectors
5, 7, 8, the lowering computes `n_projs = 4` and rewrites the selectors to
0, 2, 3 — the value 1 lies in `[0, n_projs)` but is carried by no Proj, so
the rewritten selectors are not contiguous over `[0, n_projs)`. -/
theorem claim_C1_counterexample :
    (gen_SwitchJmp (TgtNode.Mov_imm 0) [5, 7, 8] 10).n_projs = 4 ∧
    (gen_SwitchJmp (TgtNode.Mov_imm 0) [5, 7, 8] 10).new_projs =
      [0, 2, 3] ∧
    (0 : Int) ≤ 1 ∧
    (1 : Int) < (gen_SwitchJmp (TgtNode.Mov_imm 0) [5, 7, 8] 10).n_projs ∧
    ¬((1 : Int) ∈ (gen_SwitchJmp (TgtNode.Mov_imm 0) [5, 7, 8] 10).new_projs) := by
  refine ⟨rfl, rfl, by norm_num, by decide, by decide⟩

/-- Claim C1 (amended): for a switch Cond with a nonempty set of Proj
selectors (each fitting a C `int`), the lowering computes
`translation = min`, `n_projs = max - min + 1`, rewrites every Proj
selector to `old - translation`, and emits
`SwitchJmp(Sub_reg(selector, materialised translation), n_projs,
default - translation)`; after the rewrite the selectors lie within
`[0, n_projs)`, attain both 0 and `n_projs - 1`, and remain
duplicate-free when the source selectors were — but they need not cover
every value of `[0, n_projs)`. -/
theorem claim_C1_switch_lowering (new_op : TgtNode) (projs : List Int)
    (default_pn : Int) (hne : projs ≠ [])
    (hbound : ∀ pn ∈ projs, -2147483648 ≤ pn ∧ pn ≤ 2147483647) :
    ((gen_SwitchJmp new_op projs default_pn).translation ∈ projs ∧
      ∀ pn ∈ projs,
        (gen_SwitchJmp new_op projs default_pn).translation ≤ pn) ∧
    ((gen_SwitchJmp new_op projs default_pn).translation +
        (gen_SwitchJmp new_op projs default_pn).n_projs - 1 ∈ projs ∧
      ∀ pn ∈ projs,
        pn ≤ (gen_SwitchJmp new_op projs default_pn).translation +
               (gen_SwitchJmp new_op projs default_pn).n_projs - 1) ∧
    (gen_SwitchJmp new_op projs default_pn).new_projs =
      projs.map
        (fun pn => pn - (gen_SwitchJmp new_op projs default_pn).translation) ∧
    (gen_SwitchJmp new_op projs default_pn).result =
      TgtNode.SwitchJmp
        (TgtNode.Sub_reg new_op
          (create_const_graph_value
            (gen_SwitchJmp new_op projs default_pn).translation))
        (gen_SwitchJmp new_op projs default_pn).n_projs
        (default_pn - (gen_SwitchJmp new_op projs default_pn).translation) ∧
    (∀ q ∈ (gen_SwitchJmp new_op projs default_pn).new_projs,
      0 ≤ q ∧ q < (gen_SwitchJmp new_op projs default_pn).n_projs) ∧
    (0 : Int) ∈ (gen_SwitchJmp new_op projs default_pn).new_projs ∧
    (gen_SwitchJmp new_op projs default_pn).n_projs - 1 ∈
      (gen_SwitchJmp new_op projs default_pn).new_projs ∧
    (projs.Nodup → (gen_SwitchJmp new_op projs default_pn).new_projs.Nodup) := by
  obtain ⟨hminmem, hminle⟩ :=
    switch_min_spec projs hne (fun pn h => (hbound pn h).2)
  obtain ⟨hmaxmem, hmaxge⟩ :=
    switch_max_spec projs hne (fun pn h => (hbound pn h).1)
  have htrans : (gen_SwitchJmp new_op projs default_pn).translation =
      (switch_min_max projs).1 := rfl
  have hnp : (gen_SwitchJmp new_op projs default_pn).n_projs =
      (switch_min_max projs).2 - (switch_min_max projs).1 + 1 := rfl
  have hnew : (gen_SwitchJmp new_op projs default_pn).new_projs =
      projs.map (fun pn => pn - (switch_min_max projs).1) := rfl
  have hmax_eq : (gen_SwitchJmp new_op projs default_pn).translation +
      (gen_SwitchJmp new_op projs default_pn).n_projs - 1 =
      (switch_min_max projs).2 := by
    rw [htrans, hnp]; ring
  refine ⟨⟨htrans ▸ hminmem, fun pn h => htrans ▸ hminle pn h⟩,
    ⟨hmax_eq ▸ hmaxmem, fun pn h => hmax_eq ▸ hmaxge pn h⟩,
    htrans ▸ hnew, rfl, ?_, ?_, ?_, ?_⟩
  · intro q hq
    rw [hnew] at hq
    obtain ⟨pn, hpn, rfl⟩ := List.mem_map.mp hq
    have h1 := hminle pn hpn
    have h2 := hmaxge pn hpn
    rw [hnp]
    omega
  · rw [hnew]
    exact List.mem_map.mpr ⟨(switch_min_max projs).1, hminmem, by ring⟩
  · rw [hnew, hnp]
    exact List.mem_map.mpr ⟨(switch_min_max projs).2, hmaxmem, by ring⟩
  · intro hnd
    rw [hnew]
    exact hnd.map (fun x y hxy => by omega)

/-- Claim C1 (witness): the amended theorem applied to the selector list
5, 7, 8 — the translation 5 is the minimum selector. -/
theorem claim_C1_witness :
    ([5, 7, 8] : List Int) ≠ [] ∧
    (gen_SwitchJmp (TgtNode.Mov_imm 0) [5, 7, 8] 10).translation ∈
      ([5, 7, 8] : List Int) :=
  ⟨by decide,
    (claim_C1_switch_lowering (TgtNode.Mov_imm 0) [5, 7, 8] 10 (by decide)
      (by decide)).1.1⟩

/-! ## Claim C2 -/

/-- Claim C2: in the shared binop helper, an immediate-encodable right
operand yields the _imm form over the transformed left operand and the
right Const's long value; otherwise a COMMUTATIVE operator with an
immediate-encodable left operand yields the _imm form over the transformed
right operand and the left Const's long value; otherwise the _reg form is
built from both transformed operands.  In particular `Add(Const 5, x)`
lowers to `Add_imm(transform(x), 5)`. -/
theorem claim_C2_binop_helper :
    (∀ (flags : match_flags_t) (op1 op2 : SrcNode) (t : SrcNode → TgtNode)
        (nr : TgtNode → TgtNode → TgtNode) (ni : TgtNode → Int → TgtNode),
      is_imm_encodeable op2 = true →
        gen_helper_binop flags op1 op2 t nr ni =
          ni (t op1) (get_tarval_long (get_Const_tarval op2))) ∧
    (∀ (flags : match_flags_t) (op1 op2 : SrcNode) (t : SrcNode → TgtNode)
        (nr : TgtNode → TgtNode → TgtNode) (ni : TgtNode → Int → TgtNode),
      is_imm_encodeable op2 = false → flags.commutative = true →
      is_imm_encodeable op1 = true →
        gen_helper_binop flags op1 op2 t nr ni =
          ni (t op2) (get_tarval_long (get_Const_tarval op1))) ∧
    (∀ (flags : match_flags_t) (op1 op2 : SrcNode) (t : SrcNode → TgtNode)
        (nr : TgtNode → TgtNode → TgtNode) (ni : TgtNode → Int → TgtNode),
      is_imm_encodeable op2 = false →
      (flags.commutative && is_imm_encodeable op1) = false →
        gen_helper_binop flags op1 op2 t nr ni = nr (t op1) (t op2)) ∧
    (∀ t : SrcNode → TgtNode,
      gen_Add (IrMode.intM true 32)
        (SrcNode.Const ⟨5, IrMode.intM true 32⟩)
        (SrcNode.Other (IrMode.intM true 32)) t =
      Except.ok
        (TgtNode.Add_imm (t (SrcNode.Other (IrMode.intM true 32))) 5)) := by
  refine ⟨?_, ?_, ?_, fun t => rfl⟩
  · intro flags op1 op2 t nr ni h
    simp [gen_helper_binop, h]
  · intro flags op1 op2 t nr ni h2 hc h1
    simp [gen_helper_binop, h2, hc, h1]
  · intro flags op1 op2 t nr ni h2 hca
    simp [gen_helper_binop, h2, hca]

/-- Claim C2 (witness): the first case of the helper at the concrete
operands `(x, Const 7)` with the Add builders. -/
theorem claim_C2_witness :
    is_imm_encodeable (SrcNode.Const ⟨7, mode_Iu⟩) = true ∧
    gen_helper_binop MATCH_COMMUTATIVE (SrcNode.Other mode_Iu)
      (SrcNode.Const ⟨7, mode_Iu⟩) (fun _ => TgtNode.Mov_imm 1)
      TgtNode.Add_reg TgtNode.Add_imm =
      TgtNode.Add_imm (TgtNode.Mov_imm 1) 7 :=
  ⟨by decide,
    claim_C2_binop_helper.1 MATCH_COMMUTATIVE (SrcNode.Other mode_Iu)
      (SrcNode.Const ⟨7, mode_Iu⟩) (fun _ => TgtNode.Mov_imm 1)
      TgtNode.Add_reg TgtNode.Add_imm (by decide)⟩

/-! ## Claim C3 -/

/-- Claim C3: materialising a long value produces a single `Mov_imm v`
exactly when `v ∈ [-4096, 4095]`, and a `LoImm (HiImm v) v` pair exactly
otherwise; a Const with reference mode has its tarval converted to the
32-bit unsigned mode (value taken modulo 2^32) before materialisation,
while integer modes are materialised from the raw value. -/
theorem claim_C3_const_materialisation :
    (∀ v : Int,
      create_const_graph_value v = TgtNode.Mov_imm v ↔
        (-4096 ≤ v ∧ v ≤ 4095)) ∧
    (∀ v : Int,
      create_const_graph_value v = TgtNode.LoImm (TgtNode.HiImm v) v ↔
        (v < -4096 ∨ 4095 < v)) ∧
    (∀ (v : Int) (b : Nat),
      create_const_graph ⟨v, IrMode.refM b⟩ =
        create_const_graph_value (Int.emod v 4294967296)) ∧
    (∀ (v : Int) (sg : Bool) (b : Nat),
      create_const_graph ⟨v, IrMode.intM sg b⟩ =
        create_const_graph_value v) := by
  have hcond : ∀ v : Int,
      (decide (v < -4096) || decide (v > 4095)) = true ↔
        (v < -4096 ∨ v > 4095) := by
    intro v; simp
  refine ⟨?_, ?_, fun v b => rfl, fun v sg b => rfl⟩
  · intro v
    by_cases h : v < -4096 ∨ v > 4095
    · rw [create_const_graph_value, if_pos ((hcond v).mpr h)]
      exact iff_of_false (by simp) (by omega)
    · rw [create_const_graph_value, if_neg (fun hc => h ((hcond v).mp hc))]
      exact iff_of_true rfl (by omega)
  · intro v
    by_cases h : v < -4096 ∨ v > 4095
    · rw [create_const_graph_value, if_pos ((hcond v).mpr h)]
      exact iff_of_true rfl (by omega)
    · rw [create_const_graph_value, if_neg (fun hc => h ((hcond v).mp hc))]
      exact iff_of_false (by simp) (by omega)

/-! ## Claim C10 -/

/-- Claim C10: the immediate-encodability test depends only on the operand
being a Const and on its raw long value lying in [-4096, 4095] — the
Const's mode is ignored — so the binop helper folds an in-range Const of
any mode, reference mode included, into the _imm form with the raw value,
without the 32-bit unsigned reinterpretation that constant materialisation
applies to reference tarvals. -/
theorem claim_C10_imm_predicate_ignores_mode :
    (∀ (v : Int) (m : IrMode),
      is_imm_encodeable (SrcNode.Const ⟨v, m⟩) =
        (decide (-4096 ≤ v) && decide (v ≤ 4095))) ∧
    (∀ n : SrcNode, is_Const n = false → is_imm_encodeable n = false) ∧
    (∀ (v : Int) (b : Nat) (flags : match_flags_t) (op1 : SrcNode)
        (t : SrcNode → TgtNode) (nr : TgtNode → TgtNode → TgtNode)
        (ni : TgtNode → Int → TgtNode),
      -4096 ≤ v → v ≤ 4095 →
        gen_helper_binop flags op1 (SrcNode.Const ⟨v, IrMode.refM b⟩)
            t nr ni =
          ni (t op1) v) := by
  refine ⟨?_, ?_, ?_⟩
  · intro v m
    have h : is_imm_encodeable (SrcNode.Const ⟨v, m⟩) =
        !(decide (v < -4096) || decide (v > 4095)) := rfl
    rw [h, Bool.eq_iff_iff]
    simp
  · intro n h
    simp [is_imm_encodeable, h]
  · intro v b flags op1 t nr ni h1 h2
    have henc : is_imm_encodeable (SrcNode.Const ⟨v, IrMode.refM b⟩) = true := by
      have h : is_imm_encodeable (SrcNode.Const ⟨v, IrMode.refM b⟩) =
          !(decide (v < -4096) || decide (v > 4095)) := rfl
      rw [h]
      simp
      omega
    simp [gen_helper_binop, henc, get_Const_tarval, get_tarval_long]

/-- Claim C10 (witness): a reference-mode Const 4095 folds directly into
the _imm form with its raw value. -/
theorem claim_C10_witness :
    (-4096 : Int) ≤ 4095 ∧
    gen_helper_binop MATCH_NONE (SrcNode.Other mode_Iu)
      (SrcNode.Const ⟨4095, IrMode.refM 32⟩) (fun _ => TgtNode.Mov_imm 2)
      TgtNode.Sub_reg TgtNode.Sub_imm =
      TgtNode.Sub_imm (TgtNode.Mov_imm 2) 4095 :=
  ⟨by norm_num,
    claim_C10_imm_predicate_ignores_mode.2.2 4095 32 MATCH_NONE
      (SrcNode.Other mode_Iu) (fun _ => TgtNode.Mov_imm 2) TgtNode.Sub_reg
      TgtNode.Sub_imm (by norm_num) (by norm_num)⟩

/-! ## Claim C4 -/

/-- Claim C4: a source be_AddSP lowers to a target SubSP and a source
be_SubSP to a target AddSP, each over (transformed old sp, transformed
size, NoMem); the Proj remapping is symmetric: for an AddSP source, `sp`
maps to the SubSP stack selector with the SP register assigned, `res` to
the same stack selector, `M` to the memory selector, and for a SubSP
source, `sp` maps to the AddSP stack selector with the SP register
assigned and `M` to the memory selector (a be_SubSP has no `res`
output). -/
theorem claim_C4_stack_direction :
    (∀ new_sp new_sz : TgtNode,
      gen_be_AddSP new_sp new_sz =
        TgtNode.SubSP new_sp new_sz TgtNode.NoMem) ∧
    (∀ new_sp new_sz : TgtNode,
      gen_be_SubSP new_sp new_sz =
        TgtNode.AddSP new_sp new_sz TgtNode.NoMem) ∧
    (∀ new_pred : TgtNode,
      gen_Proj_be_AddSP new_pred pn_be_AddSP_sp =
        Except.ok ⟨TgtNode.Proj new_pred mode_Iu TgtPn.SubSP_stack, true⟩ ∧
      gen_Proj_be_AddSP new_pred pn_be_AddSP_res =
        Except.ok ⟨TgtNode.Proj new_pred mode_Iu TgtPn.SubSP_stack, false⟩ ∧
      gen_Proj_be_AddSP new_pred pn_be_AddSP_M =
        Except.ok ⟨TgtNode.Proj new_pred mode_M TgtPn.SubSP_M, false⟩) ∧
    (∀ new_pred : TgtNode,
      gen_Proj_be_SubSP new_pred pn_be_SubSP_sp =
        Except.ok ⟨TgtNode.Proj new_pred mode_Iu TgtPn.AddSP_stack, true⟩ ∧
      gen_Proj_be_SubSP new_pred pn_be_SubSP_M =
        Except.ok ⟨TgtNode.Proj new_pred mode_M TgtPn.AddSP_M, false⟩) :=
  ⟨fun _ _ => rfl, fun _ _ => rfl, fun _ => ⟨rfl, rfl, rfl⟩,
    fun _ => ⟨rfl, rfl⟩⟩

/-! ## Claim C5 -/

/-- Claim C5 (counterexample): the Div handler injects no Proj — at a
concrete integer Div it returns the Div node itself, which is not a
projection. -/
theorem claim_C5_counterexample :
    gen_Div mode_Iu (SrcNode.Other mode_Iu) (SrcNode.Other mode_Iu)
        (fun _ => TgtNode.Mov_imm 0) =
      Except.ok
        ⟨TgtNode.Div_reg (TgtNode.Mov_imm 0) (TgtNode.Mov_imm 0), false,
          TgtNode.Div_reg (TgtNode.Mov_imm 0) (TgtNode.Mov_imm 0)⟩ ∧
    is_proj_node (TgtNode.Div_reg (TgtNode.Mov_imm 0) (TgtNode.Mov_imm 0)) =
      false :=
  ⟨rfl, rfl⟩

/-- Claim C5 (amended): for every integer mode, the Mul handler builds the
multiply through the binop helper, sets modify-flags on it and returns a
Proj extracting the low 32 bits; the Mulh handler returns a Proj on the
Mulh result selector (the upper 32 bits per the node's contract) without
setting flags; the Div handler returns the Div node itself — no Proj is
injected — and only Mul, among the three, sets modify-flags. -/
theorem claim_C5_mul_div_projections (sg : Bool) (b : Nat)
    (op1 op2 : SrcNode) (t : SrcNode → TgtNode) :
    gen_Mul (IrMode.intM sg b) op1 op2 t =
      Except.ok
        ⟨gen_helper_binop MATCH_COMMUTATIVE_SIZE_NEUTRAL op1 op2 t
            TgtNode.Mul_reg TgtNode.Mul_imm,
          true,
          TgtNode.Proj
            (gen_helper_binop MATCH_COMMUTATIVE_SIZE_NEUTRAL op1 op2 t
              TgtNode.Mul_reg TgtNode.Mul_imm) mode_Iu TgtPn.Mul_low⟩ ∧
    gen_Mulh (IrMode.intM sg b) op1 op2 t =
      Except.ok
        ⟨gen_helper_binop MATCH_COMMUTATIVE_SIZE_NEUTRAL op1 op2 t
            TgtNode.Mulh_reg TgtNode.Mulh_imm,
          false,
          TgtNode.Proj
            (gen_helper_binop MATCH_COMMUTATIVE_SIZE_NEUTRAL op1 op2 t
              TgtNode.Mulh_reg TgtNode.Mulh_imm) mode_Iu TgtPn.Mulh_low⟩ ∧
    gen_Div (IrMode.intM sg b) op1 op2 t =
      Except.ok
        ⟨gen_helper_binop MATCH_SIZE_NEUTRAL op1 op2 t
            TgtNode.Div_reg TgtNode.Div_imm,
          false,
          gen_helper_binop MATCH_SIZE_NEUTRAL op1 op2 t
            TgtNode.Div_reg TgtNode.Div_imm⟩ ∧
    is_proj_node
      (gen_helper_binop MATCH_SIZE_NEUTRAL op1 op2 t
        TgtNode.Div_reg TgtNode.Div_imm) = false := by
  refine ⟨rfl, rfl, rfl, ?_⟩
  by_cases h2 : is_imm_encodeable op2 = true
  · simp [gen_helper_binop, h2, is_proj_node]
  · simp [gen_helper_binop, h2, MATCH_SIZE_NEUTRAL, is_proj_node]

/-! ## Claim C6 -/

/-- Claim C6: an FP compare is fatal; a non-FP compare passes both
transformed operands through gen_extension for the compare mode —
identity at 32 bits, sign extension (shift pair) for narrower signed
widths, zero extension for the narrower unsigned widths 16 (shift pair)
and 8 (AND 0xFF) — then emits Cmp_reg with carry false and is_unsigned
the negation of the compare mode's signedness. -/
theorem claim_C6_cmp_extension :
    (∀ (n1 n2 : TgtNode) (b : Nat),
      gen_Cmp (IrMode.floatM b) n1 n2 =
        Except.error (SparcError.fatal "FloatCmp not implemented")) ∧
    (∀ (n1 n2 : TgtNode) (m : IrMode), mode_is_float m = false →
      gen_Cmp m n1 n2 =
        (gen_extension n1 m).bind (fun e1 =>
          (gen_extension n2 m).bind (fun e2 =>
            Except.ok
              (TgtNode.Cmp_reg e1 e2 false (!(mode_is_signed m)))))) ∧
    (∀ (n1 n2 : TgtNode) (sg : Bool),
      gen_Cmp (IrMode.intM sg 32) n1 n2 =
        Except.ok (TgtNode.Cmp_reg n1 n2 false (!sg))) ∧
    (∀ n1 n2 : TgtNode,
      gen_Cmp (IrMode.intM true 16) n1 n2 =
        Except.ok (TgtNode.Cmp_reg (gen_sign_extension n1 16)
          (gen_sign_extension n2 16) false false)) ∧
    (∀ n1 n2 : TgtNode,
      gen_Cmp (IrMode.intM true 8) n1 n2 =
        Except.ok (TgtNode.Cmp_reg (gen_sign_extension n1 8)
          (gen_sign_extension n2 8) false false)) ∧
    (∀ n1 n2 : TgtNode,
      gen_Cmp (IrMode.intM false 16) n1 n2 =
        Except.ok (TgtNode.Cmp_reg
          (TgtNode.Slr_imm (TgtNode.Sll_imm n1 16) 16)
          (TgtNode.Slr_imm (TgtNode.Sll_imm n2 16) 16) false true)) ∧
    (∀ n1 n2 : TgtNode,
      gen_Cmp (IrMode.intM false 8) n1 n2 =
        Except.ok (TgtNode.Cmp_reg (TgtNode.And_imm n1 255)
          (TgtNode.And_imm n2 255) false true)) := by
  refine ⟨fun n1 n2 b => rfl, ?_, fun n1 n2 sg => rfl, fun n1 n2 => rfl,
    fun n1 n2 => rfl, fun n1 n2 => rfl, fun n1 n2 => rfl⟩
  intro n1 n2 m hm
  unfold gen_Cmp
  rw [if_neg (by simp [hm])]
  cases gen_extension n1 m with
  | error e => rfl
  | ok e1 =>
    cases gen_extension n2 m with
    | error e => rfl
    | ok e2 => rfl

/-- Claim C6 (witness): the gen_extension factoring applied at the signed
16-bit compare mode with concrete operands. -/
theorem claim_C6_witness :
    mode_is_float (IrMode.intM true 16) = false ∧
    gen_Cmp (IrMode.intM true 16) (TgtNode.Mov_imm 3) (TgtNode.Mov_imm 4) =
      (gen_extension (TgtNode.Mov_imm 3) (IrMode.intM true 16)).bind
        (fun e1 =>
          (gen_extension (TgtNode.Mov_imm 4) (IrMode.intM true 16)).bind
            (fun e2 =>
              Except.ok (TgtNode.Cmp_reg e1 e2 false
                (!(mode_is_signed (IrMode.intM true 16)))))) :=
  ⟨rfl, claim_C6_cmp_extension.2.1 (TgtNode.Mov_imm 3) (TgtNode.Mov_imm 4)
    (IrMode.intM true 16) rfl⟩

/-! ## Claim C7 -/

def isFatal : Except SparcError TgtNode → Bool
  | .error _ => true
  | .ok _ => false

/-- Claim C7 (counterexample): a projection of a Start node, and a Load
projection whose selector is neither the result nor the memory selector,
are not fatal — both fall through to `be_duplicate_node`. -/
theorem claim_C7_counterexample :
    gen_Proj SrcNode.Start (TgtNode.Mov_imm 0) 0 mode_M =
      Except.ok (TgtNode.Duplicate mode_M) ∧
    gen_Proj SrcNode.Load
        (TgtNode.Ld (TgtNode.Mov_imm 0) TgtNode.NoMem mode_Iu) 7 mode_Iu =
      Except.ok (TgtNode.Duplicate mode_Iu) :=
  ⟨rfl, rfl⟩

/-- Claim C7 (amended): the projection dispatcher is fatal exactly for a
Store projection other than M, a Load projection whose transformed
predecessor is not a SPARC Ld, an AddSP projection outside sp/res/M, a
SubSP projection outside sp/M, any Cmp projection, and a Div projection
that is not the res selector of a SPARC Div; projections of Start nodes
and of unhandled predecessor classes are duplicated generically (GP modes
getting a fresh Proj in mode_Iu), and a Load projection with an unknown
selector on a SPARC Ld is duplicated as well. -/
theorem claim_C7_proj_fatality (pred : SrcNode) (new_pred : TgtNode)
    (proj : Int) (mode : IrMode) :
    isFatal (gen_Proj pred new_pred proj mode) = true ↔
      ((pred = SrcNode.Store ∧ proj ≠ pn_Store_M) ∨
       (pred = SrcNode.Load ∧ is_sparc_Ld new_pred = false) ∨
       (pred = SrcNode.beAddSP ∧ proj ≠ pn_be_AddSP_sp ∧
         proj ≠ pn_be_AddSP_res ∧ proj ≠ pn_be_AddSP_M) ∨
       (pred = SrcNode.beSubSP ∧ proj ≠ pn_be_SubSP_sp ∧
         proj ≠ pn_be_SubSP_M) ∨
       pred = SrcNode.Cmp ∨
       (pred = SrcNode.Div ∧
         ¬(proj = pn_Div_res ∧ is_sparc_Div new_pred = true))) := by
  cases pred <;>
    simp only [gen_Proj, gen_Proj_Load, gen_Proj_be_AddSP,
      gen_Proj_be_SubSP, gen_Proj_Div, Except.map] <;>
    (try split_ifs) <;>
    simp_all [isFatal]

/-! ## Claim C8 -/

/-- Claim C8: an integer Abs lowers to exactly the chain
`Mov_reg(op)`, `Sra_imm(mov, 31)`, `Xor_reg(op, sra)`,
`Sub_reg(sra, xor)`, the returned Sub_reg having the Sra node as left
input and the Xor node as right input. -/
theorem claim_C8_abs_chain (sg : Bool) (b : Nat) (new_op : TgtNode) :
    gen_Abs (IrMode.intM sg b) new_op =
      Except.ok (TgtNode.Sub_reg
        (TgtNode.Sra_imm (TgtNode.Mov_reg new_op) 31)
        (TgtNode.Xor_reg new_op
          (TgtNode.Sra_imm (TgtNode.Mov_reg new_op) 31))) := rfl

/-! ## Claim C9 -/

/-- Claim C9 (code evaluated at the failing input): for a be_Copy of a
signed 16-bit value, the handler returns the duplicate with its mode
unchanged (not forced to mode_Iu) and instead rewrites the mode of the
*source* node to mode_Iu — `set_irn_mode(node, mode_Iu)` is applied to
`node` although the mode that was inspected is `result`'s. -/
theorem claim_C9_copy_mode_bug :
    gen_be_Copy (IrMode.intM true 16) =
      { result_mode := IrMode.intM true 16, source_mode_after := mode_Iu } ∧
    (gen_be_Copy (IrMode.intM true 16)).result_mode ≠ mode_Iu ∧
    (gen_be_Copy (IrMode.intM true 16)).source_mode_after ≠
      IrMode.intM true 16 :=
  ⟨rfl, by decide, by decide⟩

end SparcTransform
